import Mathlib

/-!
Shallow embedding of the book-service repository (src/src/handlers.rs,
src/src/models.rs): the `Book` data model, the Postgres-backed store as an
explicit state value, and the request handlers `books_get`, `books_post`,
`books_delete`, `books_import` as pure state-passing functions.  Rust
panics (`unwrap` on `Err`/`None`) are modelled as explicit `panic`-style
outcomes; fallible external collaborators (the connection pool, the
outbound HTTP fetch) are modelled as explicit parameters.
-/

namespace RustLib

/-! ## Calendar model (chrono::NaiveDate) -/

/-- A calendar date, as in `chrono::NaiveDate`: a year (signed), month and
day.  Values are only ever built through `mkValidDate`, which performs the
validity checks chrono performs. -/
structure Date where
  year : Int
  month : Nat
  day : Nat
deriving DecidableEq, Repr

/-- chrono's minimum representable year. -/
def minYear : Int := -262144

/-- chrono's maximum representable year. -/
def maxYear : Int := 262143

/-- Gregorian leap-year rule, as used by chrono. -/
def isLeapYear (y : Int) : Bool :=
  y % 4 == 0 && (y % 100 != 0 || y % 400 == 0)

/-- Number of days of month `m` in year `y`. -/
def daysInMonth (y : Int) (m : Nat) : Nat :=
  if m = 2 then (if isLeapYear y then 29 else 28)
  else if m = 4 ∨ m = 6 ∨ m = 9 ∨ m = 11 then 30
  else 31

/-- Build a date after chrono's validity checks: year in representable
range, month in 1..=12, day in 1..=daysInMonth.  `none` corresponds to
chrono rejecting the component values. -/
def mkValidDate (y : Int) (m d : Nat) : Option Date :=
  if minYear ≤ y ∧ y ≤ maxYear ∧ 1 ≤ m ∧ m ≤ 12 ∧ 1 ≤ d ∧ d ≤ daysInMonth y m
  then some ⟨y, m, d⟩ else none

/-! ## Rust string/integer primitives -/

/-- ASCII digit test (Rust integer parsing accepts only ASCII digits). -/
def isAsciiDigit (c : Char) : Bool :=
  decide (48 ≤ c.toNat ∧ c.toNat ≤ 57)

/-- Value of a list of ASCII digit characters, most significant first. -/
def natOfDigits (cs : List Char) : Nat :=
  cs.foldl (fun a c => a * 10 + (c.toNat - 48)) 0

/-- Rust `String::len`: the UTF-8 byte length of the string. -/
def rustLen (s : String) : Nat :=
  (s.data.map Char.utf8Size).sum

def i32Min : Int := -2147483648

def i32Max : Int := 2147483647

/-- All-digits parse of a nonempty character list. -/
def parseDigitsAll (cs : List Char) : Option Nat :=
  if cs.isEmpty then none
  else if cs.all isAsciiDigit then some (natOfDigits cs) else none

/-- Digit-and-range part of Rust `i32` parsing; `neg` records a leading
`-` sign. -/
def parseI32Digits (neg : Bool) (cs : List Char) : Option Int :=
  match parseDigitsAll cs with
  | none => none
  | some n =>
    if neg then
      if i32Min ≤ -(n : Int) then some (-(n : Int)) else none
    else
      if (n : Int) ≤ i32Max then some (n : Int) else none

/-- Rust `str::parse::<i32>()`: optional `+`/`-` sign, then one or more
ASCII digits, value within the `i32` range. -/
def parseI32 (s : String) : Option Int :=
  match s.data with
  | [] => none
  | c :: rest =>
    if c = '+' then parseI32Digits false rest
    else if c = '-' then parseI32Digits true rest
    else parseI32Digits false (c :: rest)

/-! ## chrono `%Y-%m-%d` parsing model -/

/-- Longest prefix of ASCII digits, with the remainder. -/
def spanDigits : List Char → List Char × List Char
  | [] => ([], [])
  | c :: cs =>
    if isAsciiDigit c then
      let (d, r) := spanDigits cs
      (c :: d, r)
    else ([], c :: cs)

/-- Up to `n` leading ASCII digits, with the remainder. -/
def spanDigitsUpTo : Nat → List Char → List Char × List Char
  | 0, cs => ([], cs)
  | _ + 1, [] => ([], [])
  | n + 1, c :: cs =>
    if isAsciiDigit c then
      let (d, r) := spanDigitsUpTo n cs
      (c :: d, r)
    else ([], c :: cs)

/-- Unicode White_Space test, as used by Rust `str::trim_left`. -/
def isRustWhitespace (c : Char) : Bool :=
  decide ((9 ≤ c.toNat ∧ c.toNat ≤ 13) ∨ c.toNat = 32 ∨ c.toNat = 133 ∨
    c.toNat = 160 ∨ c.toNat = 5760 ∨ (8192 ≤ c.toNat ∧ c.toNat ≤ 8202) ∨
    c.toNat = 8232 ∨ c.toNat = 8233 ∨ c.toNat = 8239 ∨ c.toNat = 8287 ∨
    c.toNat = 12288)

/-- Leading-whitespace trim, as chrono applies (`s = s.trim_left()`)
before every numeric field it parses. -/
def trimLeft (cs : List Char) : List Char :=
  cs.dropWhile isRustWhitespace

/-- chrono numeric year field (`%Y`): leading whitespace trimmed, then
either an explicit `+`/`-` sign followed by a greedy unbounded digit run,
or, with no sign, one to four digits (chrono's `Year` width). -/
def parseYearField (cs : List Char) : Option (Int × List Char) :=
  match trimLeft cs with
  | '+' :: rest =>
    let (ds, r) := spanDigits rest
    if ds.isEmpty then none else some ((natOfDigits ds : Int), r)
  | '-' :: rest =>
    let (ds, r) := spanDigits rest
    if ds.isEmpty then none else some (-(natOfDigits ds : Int), r)
  | rest =>
    let (ds, r) := spanDigitsUpTo 4 rest
    if ds.isEmpty then none else some ((natOfDigits ds : Int), r)

/-- chrono two-digit numeric field (`%m`, `%d`): leading whitespace
trimmed, then one or two digits. -/
def parseTwoDigitField (cs : List Char) : Option (Nat × List Char) :=
  let (ds, r) := spanDigitsUpTo 2 (trimLeft cs)
  if ds.isEmpty then none else some (natOfDigits ds, r)

/-- Model of `chrono::NaiveDate::parse_from_str(s, "%Y-%m-%d")`: year,
literal `-` (matched exactly, no trimming), month, literal `-`, day, end
of input (trailing input is an error), then calendar validation. -/
def parseYmd (s : String) : Option Date :=
  match parseYearField s.data with
  | none => none
  | some (y, r1) =>
    match r1 with
    | '-' :: r2 =>
      match parseTwoDigitField r2 with
      | none => none
      | some (m, r3) =>
        match r3 with
        | '-' :: r4 =>
          match parseTwoDigitField r4 with
          | none => none
          | some (d, r5) => if r5.isEmpty then mkValidDate y m d else none
        | _ => none
    | _ => none

/-! ## Date normalization (handlers.rs, `books_import` loop body) -/

/-- Outcome of computing `publication_date` for one imported record:
`ok` a date, `err` a `chrono::ParseError` held in the `Result` (the loop
then skips the record), or `panic` — an `unwrap` panic escaping the
handler. -/
inductive DateParse where
  | ok (d : Date)
  | err
  | panic
deriving DecidableEq, Repr

/-- Model of `chrono::NaiveDate::from_ymd`, which panics on out-of-range
components. -/
def fromYmd (y : Int) (m d : Nat) : DateParse :=
  match mkValidDate y m d with
  | some dt => .ok dt
  | none => .panic

/-- The date normalization performed per record in `books_import`
(handlers.rs lines 162-171): length 4 ⇒ `parse::<i32>().unwrap()` then
`from_ymd(year, 1, 1)`; length 10 ⇒ `parse_from_str(_, "%Y-%m-%d")`;
otherwise the sentinel `from_ymd(0, 1, 1)`.  Lengths are UTF-8 byte
lengths, as in Rust `String::len`. -/
def normalizePublishedDate (s : String) : DateParse :=
  if rustLen s = 4 then
    match parseI32 s with
    | some y => fromYmd y 1 1
    | none => .panic
  else if rustLen s = 10 then
    match parseYmd s with
    | some d => .ok d
    | none => .err
  else fromYmd 0 1 1

/-! ## Book data model (models.rs) -/

/-- The persisted `Book` entity (models.rs lines 16-23). -/
structure Book where
  id : Int
  title : String
  authors : List String
  publication_date : Date
deriving DecidableEq, Repr

/-- Source `Book::new` (models.rs lines 26-38): pure construction. -/
def Book.new (id : Int) (title : String) (authors : List String)
    (publication_date : Date) : Book :=
  ⟨id, title, authors, publication_date⟩

/-- The `books` table together with its `id` sequence: rows in store
(insertion) order, and the next serial id the database will assign. -/
structure Store where
  rows : List Book
  nextId : Int
deriving DecidableEq, Repr

/-- Source `Book::save` (models.rs lines 40-47):
`insert into books (name, author, publication_date) values ($1, $2, $3)
returning id`.  The row is appended with the store-assigned id (the
book's own `id` field is not part of the statement) and the assigned id
is returned. -/
def Book.save (b : Book) (s : Store) : Int × Store :=
  (s.nextId,
   ⟨s.rows ++ [⟨s.nextId, b.title, b.authors, b.publication_date⟩],
    s.nextId + 1⟩)

/-! ## GET /books (handlers.rs `books_get`) -/

/-- Deserialized query parameters of `books_get` (handlers.rs lines
18-22); `offset` is an `i32`, defaulting to 0 when absent. -/
structure Params where
  offset : Int
deriving DecidableEq, Repr

/-- Response of `books_get`: 400 with body "incorrect query params",
500, or 200 with a JSON array of books. -/
inductive GetStatus where
  | badRequest
  | internalError
  | ok (body : List Book)
deriving DecidableEq, Repr

/-- Observable outcome of a `books_get` call: the HTTP response and the
offset value passed to the store query, when the query was issued. -/
structure GetResult where
  status : GetStatus
  queriedOffset : Option Int
deriving DecidableEq, Repr

/-- Statement `select id, name, author, publication_date from books offset $1::INT
limit $2::INT` with `$2 = 10`.  Postgres rejects a negative OFFSET
("OFFSET must not be negative"), which surfaces as a query error. -/
def pgSelectBooks (s : Store) (offset : Int) : Option (List Book) :=
  if offset < 0 then none
  else some ((s.rows.drop offset.toNat).take 10)

/-- Handler `books_get` (handlers.rs lines 34-74).  `params = none` models a
query string that fails to deserialize; `poolOk = false` models
`pool.get()` failing.  Each returned row is projected through
`Book::new(rec.get("id"), rec.get("name"), rec.get("author"),
rec.get("publication_date"))`. -/
def books_get (poolOk : Bool) (s : Store) (params : Option Params) : GetResult :=
  match params with
  | none => ⟨.badRequest, none⟩
  | some p =>
    if poolOk then
      match pgSelectBooks s p.offset with
      | some rows =>
        ⟨.ok (rows.map (fun rec =>
            Book.new rec.id rec.title rec.authors rec.publication_date)),
         some p.offset⟩
      | none => ⟨.internalError, some p.offset⟩
    else ⟨.internalError, none⟩

/-! ## Bearer-token check (handlers.rs `check_token`) -/

/-- Source `check_token` (handlers.rs lines 24-32): the bearer token must equal
the `SECRET_TOKEN` configuration value; any mismatch is Unauthorized. -/
def check_token (secret : String) (token : String) : Bool :=
  token == secret

/-! ## POST /books (handlers.rs `books_post`) -/

/-- Response of `books_post`: 401, or 201 with the created book. -/
inductive PostStatus where
  | unauthorized
  | created (body : Book)
deriving DecidableEq, Repr

/-- serde deserialization of a client `Book` payload: the `id` field is
marked `#[serde(skip_deserializing)]` (models.rs line 18), so any
client-supplied id is discarded and `id` takes the default value 0. -/
def deserializeBook (clientId : Option Int) (title : String)
    (authors : List String) (publication_date : Date) : Book :=
  Book.new 0 title authors publication_date

/-- Handler `books_post` (handlers.rs lines 76-96).  `auth = none` models a
request with no bearer header (rejected by the `BearerAuth` extractor
before the handler body runs); otherwise `check_token` gates the insert.
On success the response body is the submitted item with `id` replaced by
the store-assigned id. -/
def books_post (secret : String) (auth : Option String) (item : Book)
    (s : Store) : PostStatus × Store :=
  match auth with
  | none => (.unauthorized, s)
  | some tok =>
    if check_token secret tok then
      let saved := item.save s
      (.created { item with id := saved.1 }, saved.2)
    else (.unauthorized, s)

/-! ## DELETE /books/{id} (handlers.rs `books_delete`) -/

/-- Response of `books_delete`: 401, 404, 204 or 500. -/
inductive DeleteStatus where
  | unauthorized
  | notFound
  | noContent
  | internalError
deriving DecidableEq, Repr

/-- Statement `delete from books where id = $1::INTEGER`: removes every row whose
id matches and reports the number of affected rows. -/
def pgDelete (s : Store) (id : Int) : Nat × Store :=
  (s.rows.countP (fun b => b.id == id),
   ⟨s.rows.filter (fun b => b.id != id), s.nextId⟩)

/-- Handler `books_delete` (handlers.rs lines 98-127).  `execOk = false` models
the execute call failing (500); 0 affected rows gives 404, otherwise
204. -/
def books_delete (secret : String) (auth : Option String) (execOk : Bool)
    (id : Int) (s : Store) : DeleteStatus × Store :=
  match auth with
  | none => (.unauthorized, s)
  | some tok =>
    if check_token secret tok then
      if execOk then
        let res := pgDelete s id
        if res.1 = 0 then (.notFound, res.2) else (.noContent, res.2)
      else (.internalError, s)
    else (.unauthorized, s)

/-! ## External wire shapes (models.rs, Google Books response) -/

structure IndustryIdentifier where
  type_field : String
  identifier : String

structure ReadingModes where
  text : Bool
  image : Bool

structure PanelizationSummary where
  contains_epub_bubbles : Bool
  contains_image_bubbles : Bool

structure ImageLinks where
  small_thumbnail : String
  thumbnail : String

/-- Wire shape `VolumeInfo` (models.rs lines 70-94); only `title`, `authors` and
`published_date` are read by the import. -/
structure VolumeInfo where
  title : String
  authors : List String
  publisher : Option String
  published_date : String
  description : Option String
  industry_identifiers : Option (List IndustryIdentifier)
  reading_modes : Option ReadingModes
  page_count : Option Int
  print_type : Option String
  categories : Option (List String)
  average_rating : Option Float
  ratings_count : Option Int
  maturity_rating : Option String
  allow_anon_logging : Option Bool
  content_version : Option String
  panelization_summary : Option PanelizationSummary
  image_links : Option ImageLinks
  language : Option String
  preview_link : Option String
  info_link : Option String
  canonical_volume_link : Option String

structure GoogleBook where
  kind : String
  id : String
  etag : String
  self_link : String
  volume_info : VolumeInfo

structure GoogleBooksRoot where
  kind : String
  total_items : Int
  items : List GoogleBook

/-! ## GET /import/books (handlers.rs `books_import`) -/

/-- Outcome of the per-record import loop: ran to completion, or a panic
escaped mid-loop (records saved before the panic remain saved). -/
inductive LoopOutcome where
  | done (s : Store)
  | panicked (s : Store)
deriving DecidableEq, Repr

/-- The `for book in books.items` loop (handlers.rs lines 161-187):
normalize the published date; a `panic` aborts, an `Err` skips the
record (`continue`), an `Ok` date is saved as a new `Book` with id 0. -/
def importBooks : List GoogleBook → Store → LoopOutcome
  | [], s => .done s
  | book :: rest, s =>
    match normalizePublishedDate book.volume_info.published_date with
    | .panic => .panicked s
    | .err => importBooks rest s
    | .ok d =>
      let new_book := Book.new 0 book.volume_info.title book.volume_info.authors d
      importBooks rest (new_book.save s).2

/-- Response of `books_import`: 400, 200 with empty body, or a panic
escaping the handler (the call finishes without a success response). -/
inductive ImportStatus where
  | badRequest
  | okEmpty
  | panicked
deriving DecidableEq, Repr

/-- Observable outcome of a `books_import` call: the response, the store
afterwards, and the URLs of the outbound GET requests issued. -/
structure ImportResult where
  status : ImportStatus
  store : Store
  calls : List String
deriving DecidableEq, Repr

/-- The fixed volumes-search base URL (handlers.rs line 145). -/
def volumesUrlBase : String := "https://www.googleapis.com/books/v1/volumes?q="

/-- The URL the handler formats, the fixed base with the raw query term
appended: the query term is interpolated verbatim. -/
def importUrl (q : String) : String := volumesUrlBase ++ q

/-- Handler `books_import` (handlers.rs lines 134-190).  The external world is a
function `env` from request URL to fetch outcome: `none` models the send
failing (`resp.unwrap()` panics), `some none` models a body that cannot
be read or parsed into `GoogleBooksRoot` (`unwrap` on the body or on
`serde_json::from_slice` panics), `some (some root)` a parsed response. -/
def books_import (env : String → Option (Option GoogleBooksRoot)) (q : String)
    (s : Store) : ImportResult :=
  if q.isEmpty then ⟨.badRequest, s, []⟩
  else
    match env (importUrl q) with
    | none => ⟨.panicked, s, [importUrl q]⟩
    | some none => ⟨.panicked, s, [importUrl q]⟩
    | some (some root) =>
      match importBooks root.items s with
      | .done s2 => ⟨.okEmpty, s2, [importUrl q]⟩
      | .panicked s2 => ⟨.panicked, s2, [importUrl q]⟩

/-! ## URL-encoding, following the specification's words -/

/-- RFC 3986 unreserved characters: ALPHA, DIGIT, `-`, `.`, `_`, `~`. -/
def isUnreservedChar (c : Char) : Bool :=
  decide ((65 ≤ c.toNat ∧ c.toNat ≤ 90) ∨ (97 ≤ c.toNat ∧ c.toNat ≤ 122) ∨
    (48 ≤ c.toNat ∧ c.toNat ≤ 57)) || c == '-' || c == '.' || c == '_' || c == '~'

/-- UTF-8 bytes of a character. -/
def charUtf8Bytes (c : Char) : List Nat :=
  let n := c.toNat
  if n < 128 then [n]
  else if n < 2048 then [192 + n / 64, 128 + n % 64]
  else if n < 65536 then [224 + n / 4096, 128 + (n / 64) % 64, 128 + n % 64]
  else [240 + n / 262144, 128 + (n / 4096) % 64, 128 + (n / 64) % 64, 128 + n % 64]

/-- Uppercase hexadecimal digit. -/
def hexDigitChar (n : Nat) : Char :=
  if n < 10 then Char.ofNat (48 + n) else Char.ofNat (55 + n)

/-- Percent escape of one byte as a percent sign and two hex digits. -/
def percentByte (b : Nat) : List Char :=
  ['%', hexDigitChar (b / 16), hexDigitChar (b % 16)]

/-- Character-list body of `urlEncodeSpec`. -/
def urlEncodeChars : List Char → List Char
  | [] => []
  | c :: cs =>
    (if isUnreservedChar c then [c]
     else (charUtf8Bytes c).foldr (fun b acc => percentByte b ++ acc) [])
    ++ urlEncodeChars cs

/-- The URL-encoding the specification's words describe ("the URL-encoded
form of q"): RFC 3986 percent-encoding, unreserved characters kept, every
other byte escaped as `%XX`.  Defined only to compare the specification's
description with the source's URL construction (`importUrl`). -/
def urlEncodeSpec (q : String) : String :=
  ⟨urlEncodeChars q.data⟩

/-! ## Helper lemmas -/

/-- Sample fixture rows used by concrete witness instances. -/
def bkA : Book := Book.new 1 "Dune" ["Frank Herbert"] ⟨1965, 8, 1⟩

def bkB : Book := Book.new 2 "Emma" ["Jane Austen"] ⟨1815, 12, 23⟩

/-- Sample fixture store of two rows with ids 1 and 2. -/
def storeAB : Store := ⟨[bkA, bkB], 3⟩

theorem map_book_new_id (l : List Book) :
    l.map (fun rec => Book.new rec.id rec.title rec.authors rec.publication_date) = l := by
  have h : (fun rec : Book =>
      Book.new rec.id rec.title rec.authors rec.publication_date) = fun rec => rec := rfl
  rw [h, List.map_id']

/-- A string has at least as many UTF-8 bytes as characters. -/
theorem length_le_rustLen (s : String) : s.data.length ≤ rustLen s := by
  rw [rustLen]
  induction s.data with
  | nil => simp
  | cons c t ih =>
    have := Char.utf8Size_pos c
    simp only [List.length_cons, List.map_cons, List.sum_cons]
    omega

theorem natOfDigits_aux_lt (cs : List Char) (h : cs.all isAsciiDigit = true) :
    ∀ a : Nat, cs.foldl (fun a c => a * 10 + (c.toNat - 48)) a < (a + 1) * 10 ^ cs.length := by
  induction cs with
  | nil => intro a; simp
  | cons c t ih =>
    intro a
    rw [List.all_cons, Bool.and_eq_true] at h
    have hd : c.toNat - 48 ≤ 9 := by
      have := of_decide_eq_true (by simpa [isAsciiDigit] using h.1 : decide (48 ≤ c.toNat ∧ c.toNat ≤ 57) = true)
      omega
    have hstep := ih h.2 (a * 10 + (c.toNat - 48))
    have hmono : (a * 10 + (c.toNat - 48) + 1) * 10 ^ t.length ≤ (a + 1) * 10 ^ (t.length + 1) := by
      have h1 : a * 10 + (c.toNat - 48) + 1 ≤ (a + 1) * 10 := by omega
      calc (a * 10 + (c.toNat - 48) + 1) * 10 ^ t.length
          ≤ ((a + 1) * 10) * 10 ^ t.length := Nat.mul_le_mul_right _ h1
        _ = (a + 1) * 10 ^ (t.length + 1) := by ring
    simpa [List.length_cons] using lt_of_lt_of_le hstep hmono

theorem natOfDigits_lt (cs : List Char) (h : cs.all isAsciiDigit = true) :
    natOfDigits cs < 10 ^ cs.length := by
  simpa [natOfDigits] using natOfDigits_aux_lt cs h 0

theorem parseDigitsAll_eq (cs : List Char) (n : Nat) (h : parseDigitsAll cs = some n) :
    n = natOfDigits cs ∧ cs.all isAsciiDigit = true := by
  by_cases h1 : cs.isEmpty <;> by_cases h2 : cs.all isAsciiDigit <;>
    simp_all [parseDigitsAll]

theorem parseI32Digits_bound (neg : Bool) (cs : List Char) (y : Int)
    (h : parseI32Digits neg cs = some y) :
    -(10 ^ cs.length : Int) < y ∧ y < (10 ^ cs.length : Int) ∧ (neg = false → 0 ≤ y) := by
  cases hpd : parseDigitsAll cs with
  | none => simp [parseI32Digits, hpd] at h
  | some n =>
    simp only [parseI32Digits, hpd] at h
    obtain ⟨hn, hall⟩ := parseDigitsAll_eq cs n hpd
    have hlt : n < 10 ^ cs.length := hn ▸ natOfDigits_lt cs hall
    have hlt2 : (n : Int) < (10 ^ cs.length : Int) := by exact_mod_cast hlt
    have h0n : (0 : Int) ≤ (n : Int) := Int.natCast_nonneg n
    have hp10 : (0 : Int) < 10 ^ cs.length := by positivity
    cases neg with
    | false =>
      simp only [Bool.false_eq_true, if_false] at h
      by_cases hr : (n : Int) ≤ i32Max
      · rw [if_pos hr] at h
        simp only [Option.some.injEq] at h
        subst h
        exact ⟨by linarith, hlt2, fun _ => h0n⟩
      · rw [if_neg hr] at h; exact absurd h (by simp)
    | true =>
      simp only [if_true] at h
      by_cases hr : i32Min ≤ -(n : Int)
      · rw [if_pos hr] at h
        simp only [Option.some.injEq] at h
        subst h
        exact ⟨by linarith, by linarith, by simp⟩
      · rw [if_neg hr] at h; exact absurd h (by simp)

/-- A value parsed by `parse::<i32>()` from a string of four UTF-8 bytes
lies between -999 and 9999. -/
theorem parseI32_len4_bound (s : String) (y : Int) (hp : parseI32 s = some y)
    (hl : rustLen s = 4) : -999 ≤ y ∧ y ≤ 9999 := by
  have hdl : s.data.length ≤ 4 := hl ▸ length_le_rustLen s
  cases hd : s.data with
  | nil => simp [parseI32, hd] at hp
  | cons c rest =>
    simp only [parseI32, hd] at hp
    rw [hd] at hdl
    simp only [List.length_cons] at hdl
    have hr3 : rest.length ≤ 3 := by omega
    have hpow3 : (10 : Int) ^ rest.length ≤ 10 ^ 3 := by
      exact_mod_cast Nat.pow_le_pow_right (by omega) hr3
    by_cases hplus : c = '+'
    · rw [if_pos hplus] at hp
      have := parseI32Digits_bound false rest y hp
      have h0 := this.2.2 rfl
      have := this.2.1
      omega
    · rw [if_neg hplus] at hp
      by_cases hminus : c = '-'
      · rw [if_pos hminus] at hp
        have := parseI32Digits_bound true rest y hp
        have h1 := this.1
        have h2 := this.2.1
        omega
      · rw [if_neg hminus] at hp
        have := parseI32Digits_bound false (c :: rest) y hp
        have h0 := this.2.2 rfl
        have h2 := this.2.1
        have hpow4 : (10 : Int) ^ (c :: rest).length ≤ 10 ^ 4 := by
          exact_mod_cast Nat.pow_le_pow_right (by omega) (by simpa using hdl)
        have := h2.trans_le hpow4
        omega

theorem countP_id_eq_zero {l : List Book} {i : Int} (h : i ∉ l.map Book.id) :
    l.countP (fun b => b.id == i) = 0 := by
  refine List.countP_eq_zero.mpr ?_
  intro b hb hbe
  exact h (List.mem_map.mpr ⟨b, hb, beq_iff_eq.mp hbe⟩)

theorem filter_ne_eq_self {l : List Book} {i : Int} (h : i ∉ l.map Book.id) :
    l.filter (fun b => b.id != i) = l := by
  refine List.filter_eq_self.mpr ?_
  intro b hb
  refine bne_iff_ne.mpr fun he => h (List.mem_map.mpr ⟨b, hb, he⟩)

theorem countP_id_ne_zero {l : List Book} {i : Int} (h : i ∈ l.map Book.id) :
    l.countP (fun b => b.id == i) ≠ 0 := by
  intro h0
  obtain ⟨b, hb, he⟩ := List.mem_map.mp h
  exact List.countP_eq_zero.mp h0 b hb (beq_iff_eq.mpr he)

theorem not_mem_map_filter (l : List Book) (i : Int) :
    i ∉ (l.filter (fun b => b.id != i)).map Book.id := by
  intro h
  obtain ⟨b, hb, he⟩ := List.mem_map.mp h
  exact absurd he (bne_iff_ne.mp (List.mem_filter.mp hb).2)

theorem filter_ne_length {l : List Book} {i : Int}
    (hnd : (l.map Book.id).Nodup) (h : i ∈ l.map Book.id) :
    (l.filter (fun b => b.id != i)).length + 1 = l.length := by
  induction l with
  | nil => simp at h
  | cons b t ih =>
    rw [List.map_cons, List.nodup_cons] at hnd
    by_cases hbi : b.id = i
    · have ht : i ∉ t.map Book.id := hbi ▸ hnd.1
      rw [List.filter_cons, if_neg (by simp [hbi]), filter_ne_eq_self ht]
      simp
    · have hit : i ∈ t.map Book.id := by
        rcases List.mem_map.mp h with ⟨a, ha, hai⟩
        rcases List.mem_cons.mp ha with h1 | h2
        · exact absurd (h1 ▸ hai) hbi
        · exact List.mem_map.mpr ⟨a, h2, hai⟩
      rw [List.filter_cons, if_pos (bne_iff_ne.mpr hbi)]
      have := ih hnd.2 hit
      simp only [List.length_cons]
      omega

theorem urlEncodeChars_of_unreserved (cs : List Char)
    (h : cs.all isUnreservedChar = true) : urlEncodeChars cs = cs := by
  induction cs with
  | nil => rfl
  | cons c t ih =>
    rw [List.all_cons, Bool.and_eq_true] at h
    simp [urlEncodeChars, h.1, ih h.2]

theorem string_mk_data (s : String) : String.mk s.data = s := by
  cases s; rfl

/-! ## Claim theorems -/

/-- C3: an import request whose outbound fetch fails, or whose response
body cannot be parsed into the `GoogleBooksRoot` shape, finishes without
a success response (the `unwrap` panic aborts the handler) and persists
no record: the store is unchanged. -/
theorem c3_fetch_or_shape_failure_aborts
    (env : String → Option (Option GoogleBooksRoot)) (q : String) (s : Store)
    (hq : q.isEmpty = false)
    (h : env (importUrl q) = none ∨ env (importUrl q) = some none) :
    books_import env q s = ⟨ImportStatus.panicked, s, [importUrl q]⟩ := by
  rcases h with h | h <;> simp [books_import, hq, h]

/-- C3 witness: a concrete import whose outbound fetch fails aborts with
no record persisted. -/
theorem c3_fetch_failure_witness :
    books_import (fun _ => none) "rust" storeAB =
      ⟨ImportStatus.panicked, storeAB, [importUrl "rust"]⟩ :=
  c3_fetch_or_shape_failure_aborts (fun _ => none) "rust" storeAB (by decide)
    (Or.inl rfl)

/-- C4: for every store and non-negative offset, `GET /books` answers 200
with the window of at most 10 rows at positions [offset, offset+10) of
the books table in store order, and the ids returned are exactly the ids
at those positions. -/
theorem c4_books_get_page (s : Store) (offset : Int) (h : 0 ≤ offset) :
    books_get true s (some ⟨offset⟩) =
      ⟨GetStatus.ok ((s.rows.drop offset.toNat).take 10), some offset⟩ ∧
    ((s.rows.drop offset.toNat).take 10).length ≤ 10 ∧
    ((s.rows.drop offset.toNat).take 10).map Book.id =
      ((s.rows.map Book.id).drop offset.toNat).take 10 := by
  refine ⟨?_, List.length_take_le 10 _, by rw [List.map_take, List.map_drop]⟩
  have h2 : ¬ offset < 0 := by omega
  simp [books_get, pgSelectBooks, h2, map_book_new_id]

/-- C4 witness: on a concrete two-row store with offset 1, the page is
the single row at position 1. -/
theorem c4_books_get_page_witness :
    books_get true storeAB (some ⟨1⟩) = ⟨GetStatus.ok [bkB], some 1⟩ ∧
    [bkB].length ≤ 10 ∧ [bkB].map Book.id = [bkB.id] :=
  c4_books_get_page storeAB 1 (by decide)

/-- C7: a `POST /books` whose bearer token is absent or differs from the
configured secret answers 401 and performs no insert: the store, and in
particular its row count, is unchanged. -/
theorem c7_unauthorized_post_no_insert (secret : String) (auth : Option String)
    (item : Book) (s : Store) (h : auth ≠ some secret) :
    books_post secret auth item s = (PostStatus.unauthorized, s) ∧
    (books_post secret auth item s).2.rows.length = s.rows.length := by
  have h1 : books_post secret auth item s = (PostStatus.unauthorized, s) := by
    cases auth with
    | none => rfl
    | some tok =>
      have ht : tok ≠ secret := fun he => h (by rw [he])
      simp [books_post, check_token, ht]
  exact ⟨h1, by rw [h1]⟩

/-- C7 witness: a concrete mismatched token is rejected with the store
untouched. -/
theorem c7_unauthorized_post_witness :
    books_post "s3cr3t" (some "wrong") bkA storeAB =
      (PostStatus.unauthorized, storeAB) ∧
    (books_post "s3cr3t" (some "wrong") bkA storeAB).2.rows.length =
      storeAB.rows.length :=
  c7_unauthorized_post_no_insert "s3cr3t" (some "wrong") bkA storeAB (by decide)

/-- C8: an import request with the empty query string answers 400,
issues no outbound call, and performs no database write. -/
theorem c8_empty_query_rejected (env : String → Option (Option GoogleBooksRoot))
    (s : Store) :
    books_import env "" s = ⟨ImportStatus.badRequest, s, []⟩ := by
  have he : ("" : String).isEmpty = true := by decide
  simp [books_import, he]

/-- C9 counterexample: for the query `"a b"` the single outbound request
URL the import issues is not the base URL with the URL-encoded query
(which would be `...?q=a%20b`): the query is interpolated verbatim. -/
theorem c9_counterexample :
    (books_import (fun _ => none) "a b" storeAB).calls ≠
      [volumesUrlBase ++ urlEncodeSpec "a b"] := by decide

/-- C9 amended: for every non-empty query the import issues exactly one
outbound GET, whose URL is the fixed volumes-search base URL with the
query term appended verbatim (no URL-encoding); this coincides with the
URL-encoded form only when every character of the query is an RFC 3986
unreserved character. -/
theorem c9_import_url_verbatim (env : String → Option (Option GoogleBooksRoot))
    (q : String) (s : Store) (hq : q.isEmpty = false) :
    (books_import env q s).calls = [importUrl q] ∧
    importUrl q = volumesUrlBase ++ q ∧
    (q.data.all isUnreservedChar = true →
      importUrl q = volumesUrlBase ++ urlEncodeSpec q) := by
  refine ⟨?_, rfl, fun hall => ?_⟩
  · rcases henv : env (importUrl q) with _ | (_ | root)
    · simp [books_import, hq, henv]
    · simp [books_import, hq, henv]
    · rcases hib : importBooks root.items s with s2 | s2 <;>
        simp [books_import, hq, henv, hib]
  · have he : urlEncodeSpec q = q := by
      rw [urlEncodeSpec, urlEncodeChars_of_unreserved q.data hall, string_mk_data]
    rw [he]
    rfl

/-- C9 witness: for the concrete query `"rust"` the single call goes to
the base URL with the query appended, which here equals its URL-encoded
form. -/
theorem c9_import_url_witness :
    (books_import (fun _ => none) "rust" storeAB).calls = [importUrl "rust"] ∧
    importUrl "rust" = volumesUrlBase ++ urlEncodeSpec "rust" :=
  ⟨(c9_import_url_verbatim (fun _ => none) "rust" storeAB rfl).1,
   (c9_import_url_verbatim (fun _ => none) "rust" storeAB rfl).2.2 (by decide)⟩

/-- A `VolumeInfo` with every optional upstream field absent. -/
def mkVolumeInfo (title : String) (authors : List String)
    (published_date : String) : VolumeInfo :=
  ⟨title, authors, none, published_date, none, none, none, none, none, none,
   none, none, none, none, none, none, none, none, none, none, none⟩

/-- A well-formed upstream record with a bare-year published date. -/
def goodRecord : GoogleBook :=
  ⟨"books#volume", "vol1", "etag1", "https://example.org/vol1",
   mkVolumeInfo "Good Book" ["Alice Author"] "1999"⟩

/-- An upstream record with a 4-character non-numeric published date. -/
def badYearRecord : GoogleBook :=
  ⟨"books#volume", "vol2", "etag2", "https://example.org/vol2",
   mkVolumeInfo "Bad Book" ["Bob Author"] "19x9"⟩

/-- An upstream record with a 10-character published date that does not
match `%Y-%m-%d` (month 13). -/
def badDateRecord : GoogleBook :=
  ⟨"books#volume", "vol3", "etag3", "https://example.org/vol3",
   mkVolumeInfo "Odd Book" ["Carol Author"] "2001-13-37"⟩

/-- C2: a batch of one record with a 4-character non-numeric date and one
well-formed record makes the whole import panic with nothing persisted
(the `parse::<i32>().unwrap()` aborts the handler instead of skipping the
record), while a batch of one record with a malformed 10-character date
and one well-formed record is handled as the claim states: the bad record
is skipped and exactly the well-formed one is persisted with a 200. -/
theorem c2_batch_partial_success_bug :
    books_import
        (fun _ => some (some ⟨"books#volumes", 2, [badYearRecord, goodRecord]⟩))
        "rust" ⟨[], 1⟩ =
      ⟨ImportStatus.panicked, ⟨[], 1⟩, [importUrl "rust"]⟩ ∧
    books_import
        (fun _ => some (some ⟨"books#volumes", 2, [badDateRecord, goodRecord]⟩))
        "rust" ⟨[], 1⟩ =
      ⟨ImportStatus.okEmpty,
       ⟨[Book.new 1 "Good Book" ["Alice Author"] ⟨1999, 1, 1⟩], 2⟩,
       [importUrl "rust"]⟩ := by
  constructor <;> rfl

/-- C1 counterexample: `"19x9"` has length 4, yet the normalization does
not parse it as an integer year and produce a date — the
`parse::<i32>().unwrap()` panics, so normalization is not a total
function producing a date for every length-4 string. -/
theorem c1_counterexample :
    rustLen "19x9" = 4 ∧ normalizePublishedDate "19x9" = DateParse.panic := by
  decide

/-- C1 amended: for a length-4 string that parses as an integer year `y`
the normalization produces `date(y, 1, 1)`, while a length-4 string that
fails integer parsing makes the normalization panic (so normalization is
total only away from non-numeric length-4 strings); a length-10 string is
parsed with the format `%Y-%m-%d`, producing the parsed date on success
and a per-record error on failure; a string of any other length produces
the sentinel `date(0, 1, 1)`.  Lengths are UTF-8 byte lengths. -/
theorem c1_date_normalization (s : String) :
    (rustLen s = 4 →
      (∀ y : Int, parseI32 s = some y →
        normalizePublishedDate s = DateParse.ok ⟨y, 1, 1⟩) ∧
      (parseI32 s = none → normalizePublishedDate s = DateParse.panic)) ∧
    (rustLen s = 10 →
      (∀ d : Date, parseYmd s = some d →
        normalizePublishedDate s = DateParse.ok d) ∧
      (parseYmd s = none → normalizePublishedDate s = DateParse.err)) ∧
    (rustLen s ≠ 4 → rustLen s ≠ 10 →
      normalizePublishedDate s = DateParse.ok ⟨0, 1, 1⟩) := by
  refine ⟨fun h4 => ⟨fun y hy => ?_, fun hn => ?_⟩,
    fun h10 => ⟨fun d hd => ?_, fun hn => ?_⟩, fun h4 h10 => ?_⟩
  · obtain ⟨hlo, hhi⟩ := parseI32_len4_bound s y hy h4
    have hcond : minYear ≤ y ∧ y ≤ maxYear ∧ 1 ≤ 1 ∧ 1 ≤ 12 ∧ 1 ≤ 1 ∧
        1 ≤ daysInMonth y 1 := by
      refine ⟨by rw [minYear]; omega, by rw [maxYear]; omega, le_refl 1,
        by omega, le_refl 1, ?_⟩
      rw [daysInMonth]; norm_num
    have hmk : mkValidDate y 1 1 = some ⟨y, 1, 1⟩ := by
      rw [mkValidDate, if_pos hcond]
    rw [normalizePublishedDate, if_pos h4, hy]
    simp [fromYmd, hmk]
  · rw [normalizePublishedDate, if_pos h4, hn]
  · rw [normalizePublishedDate, if_neg (by omega), if_pos h10, hd]
  · rw [normalizePublishedDate, if_neg (by omega), if_pos h10, hn]
  · rw [normalizePublishedDate, if_neg h4, if_neg h10]
    decide

/-- C1 witness: the three concrete example inputs of the specification.
`"1999"` maps to 1999-01-01, `"2001-07-04"` maps to 2001-07-04, and
`"??"` maps to the sentinel 0000-01-01. -/
theorem c1_date_normalization_witness :
    normalizePublishedDate "1999" = DateParse.ok ⟨1999, 1, 1⟩ ∧
    normalizePublishedDate "2001-07-04" = DateParse.ok ⟨2001, 7, 4⟩ ∧
    normalizePublishedDate "??" = DateParse.ok ⟨0, 1, 1⟩ :=
  ⟨((c1_date_normalization "1999").1 (by decide)).1 1999 (by decide),
   ((c1_date_normalization "2001-07-04").2.1 (by decide)).1 ⟨2001, 7, 4⟩
     (by decide),
   (c1_date_normalization "??").2.2 (by decide) (by decide)⟩

/-- C10: the `GET /books` handler performs no non-negativity check on a
deserialized offset: the value, negative ones included, is passed
unchanged as the OFFSET parameter of the store query, the response is
never 400, and a negative offset surfaces as the store-side 500. -/
theorem c10_offset_unvalidated (s : Store) (offset : Int) :
    (books_get true s (some ⟨offset⟩)).queriedOffset = some offset ∧
    (books_get true s (some ⟨offset⟩)).status ≠ GetStatus.badRequest ∧
    (offset < 0 →
      books_get true s (some ⟨offset⟩) = ⟨GetStatus.internalError, some offset⟩) := by
  refine ⟨?_, ?_, fun h => by simp [books_get, pgSelectBooks, h]⟩ <;>
    by_cases h : offset < 0 <;> simp [books_get, pgSelectBooks, h]

/-- C5: with a valid token and unique ids, deleting a nonexistent id
answers 404 and leaves the store unchanged; deleting an existing id
answers 204 and removes exactly that one row (every other row survives);
deleting the same id again answers 404. -/
theorem c5_delete_semantics (secret : String) (id : Int) (s : Store)
    (hnd : (s.rows.map Book.id).Nodup) :
    (id ∉ s.rows.map Book.id →
      books_delete secret (some secret) true id s = (DeleteStatus.notFound, s)) ∧
    (id ∈ s.rows.map Book.id →
      books_delete secret (some secret) true id s =
        (DeleteStatus.noContent, ⟨s.rows.filter (fun b => b.id != id), s.nextId⟩) ∧
      (s.rows.filter (fun b => b.id != id)).length + 1 = s.rows.length ∧
      (∀ b ∈ s.rows.filter (fun b => b.id != id), b.id ≠ id) ∧
      (∀ b ∈ s.rows, b.id ≠ id → b ∈ s.rows.filter (fun b => b.id != id)) ∧
      books_delete secret (some secret) true id
          ⟨s.rows.filter (fun b => b.id != id), s.nextId⟩ =
        (DeleteStatus.notFound, ⟨s.rows.filter (fun b => b.id != id), s.nextId⟩)) := by
  constructor
  · intro hno
    simp [books_delete, check_token, pgDelete, countP_id_eq_zero hno,
      filter_ne_eq_self hno]
  · intro hyes
    refine ⟨?_, filter_ne_length hnd hyes, ?_, ?_, ?_⟩
    · simp [books_delete, check_token, pgDelete, countP_id_ne_zero hyes]
    · intro b hb
      exact bne_iff_ne.mp (List.mem_filter.mp hb).2
    · intro b hb hne
      exact List.mem_filter.mpr ⟨hb, bne_iff_ne.mpr hne⟩
    · have hno2 : id ∉ (s.rows.filter (fun b => b.id != id)).map Book.id :=
        not_mem_map_filter s.rows id
      simp [books_delete, check_token, pgDelete, countP_id_eq_zero hno2,
        filter_ne_eq_self hno2]

/-- C5 witness: on the concrete two-row store, deleting id 1 answers 204
and leaves only the row with id 2. -/
theorem c5_delete_witness :
    books_delete "s3cr3t" (some "s3cr3t") true 1 storeAB =
      (DeleteStatus.noContent, ⟨[bkB], 3⟩) :=
  ((c5_delete_semantics "s3cr3t" 1 storeAB (by decide)).2 (by decide)).1

/-- C6: an authorized `POST /books` with a complete valid payload answers
201 with the store-assigned id (the client-supplied id is ignored by
deserialization), that id is positive and not previously present, and
the `GET /books` page starting at the old row count returns exactly the
new record with the submitted title, authors and publication date. -/
theorem c6_post_roundtrip (secret : String) (clientId : Option Int)
    (title : String) (authors : List String) (pd : Date) (s : Store)
    (hpos : 0 < s.nextId) (hfresh : ∀ b ∈ s.rows, b.id < s.nextId) :
    books_post secret (some secret) (deserializeBook clientId title authors pd) s =
      (PostStatus.created (Book.new s.nextId title authors pd),
       ⟨s.rows ++ [Book.new s.nextId title authors pd], s.nextId + 1⟩) ∧
    0 < (Book.new s.nextId title authors pd).id ∧
    (Book.new s.nextId title authors pd).id ∉ s.rows.map Book.id ∧
    (books_get true ⟨s.rows ++ [Book.new s.nextId title authors pd], s.nextId + 1⟩
        (some ⟨(s.rows.length : Int)⟩)).status =
      GetStatus.ok [Book.new s.nextId title authors pd] := by
  refine ⟨?_, hpos, ?_, ?_⟩
  · simp [books_post, check_token, deserializeBook, Book.save, Book.new]
  · intro h
    obtain ⟨b, hb, he⟩ := List.mem_map.mp h
    have := hfresh b hb
    rw [he] at this
    simp [Book.new] at this
  · have h2 : ¬ ((s.rows.length : Int) < 0) := by omega
    simp only [books_get, pgSelectBooks, h2, if_true, if_false, Int.toNat_natCast]
    rw [List.drop_left]
    rfl

/-- C6 witness: a concrete authorized create on the two-row fixture store
assigns id 3, and the page at offset 2 returns exactly the new record. -/
theorem c6_post_roundtrip_witness :
    books_post "tok" (some "tok") (deserializeBook (some 77) "T" ["A"] ⟨2020, 5, 6⟩)
        storeAB =
      (PostStatus.created (Book.new 3 "T" ["A"] ⟨2020, 5, 6⟩),
       ⟨[bkA, bkB, Book.new 3 "T" ["A"] ⟨2020, 5, 6⟩], 4⟩) ∧
    0 < (Book.new 3 "T" ["A"] ⟨2020, 5, 6⟩).id ∧
    (Book.new 3 "T" ["A"] ⟨2020, 5, 6⟩).id ∉ storeAB.rows.map Book.id ∧
    (books_get true ⟨[bkA, bkB, Book.new 3 "T" ["A"] ⟨2020, 5, 6⟩], 4⟩
        (some ⟨2⟩)).status =
      GetStatus.ok [Book.new 3 "T" ["A"] ⟨2020, 5, 6⟩] :=
  c6_post_roundtrip "tok" (some 77) "T" ["A"] ⟨2020, 5, 6⟩ storeAB (by decide)
    (by decide)

/-- C10 witness: the concrete offset -1 reaches the store query unchanged
and surfaces as a 500, not a 400. -/
theorem c10_offset_unvalidated_witness :
    (books_get true storeAB (some ⟨-1⟩)).queriedOffset = some (-1) ∧
    (books_get true storeAB (some ⟨-1⟩)).status ≠ GetStatus.badRequest ∧
    books_get true storeAB (some ⟨-1⟩) = ⟨GetStatus.internalError, some (-1)⟩ :=
  ⟨(c10_offset_unvalidated storeAB (-1)).1,
   (c10_offset_unvalidated storeAB (-1)).2.1,
   (c10_offset_unvalidated storeAB (-1)).2.2 (by decide)⟩

end RustLib
